import Mathlib

/-!
Shallow embedding of the gralloc/GBM buffer manager (gralloc_gbm.cpp) and
proofs about its buffer-object lifecycle: format/geometry translation,
handle registration and ownership, and the lock/map/unlock state machine.

Machine integers of the C code are modelled as `Nat` (bitmasks, widths,
heights, pids) and `Int` (error codes, the `lock_count` and `prime_fd`
fields, which the C declares as signed `int`).  The GBM backend
(gbm_bo_create / gbm_bo_import / gbm_bo_map) is a black box; its responses
enter the model as explicit oracle parameters, so that a statement
quantified over the oracle expresses independence from the backend.
-/

namespace GrallocGbm

/-! Constants from system/graphics.h, hardware/gralloc.h, gbm.h and errno. -/

def HAL_PIXEL_FORMAT_RGBA_8888 : Nat := 1
def HAL_PIXEL_FORMAT_RGBX_8888 : Nat := 2
def HAL_PIXEL_FORMAT_RGB_888 : Nat := 3
def HAL_PIXEL_FORMAT_RGB_565 : Nat := 4
def HAL_PIXEL_FORMAT_BGRA_8888 : Nat := 5
def HAL_PIXEL_FORMAT_YV12 : Nat := 0x32315659

def GRALLOC_USAGE_SW_READ_OFTEN : Nat := 0x3
def GRALLOC_USAGE_SW_READ_MASK : Nat := 0xF
def GRALLOC_USAGE_SW_WRITE_OFTEN : Nat := 0x30
def GRALLOC_USAGE_SW_WRITE_MASK : Nat := 0xF0
def GRALLOC_USAGE_HW_TEXTURE : Nat := 0x100
def GRALLOC_USAGE_HW_RENDER : Nat := 0x200
def GRALLOC_USAGE_HW_FB : Nat := 0x1000
def GRALLOC_USAGE_CURSOR : Nat := 0x8000

def GBM_BO_USE_SCANOUT : Nat := 1
def GBM_BO_USE_CURSOR : Nat := 2
def GBM_BO_USE_RENDERING : Nat := 4
def GBM_BO_USE_LINEAR : Nat := 16

/-- fourcc code builder, as in drm_fourcc.h / gbm.h. -/
def fourcc (a b c d : Nat) : Nat := a ||| (b <<< 8) ||| (c <<< 16) ||| (d <<< 24)

def GBM_FORMAT_ABGR8888 : Nat := fourcc 65 66 50 52
def GBM_FORMAT_XBGR8888 : Nat := fourcc 88 66 50 52
def GBM_FORMAT_RGB888 : Nat := fourcc 82 71 50 52
def GBM_FORMAT_RGB565 : Nat := fourcc 82 71 49 54
def GBM_FORMAT_ARGB8888 : Nat := fourcc 65 82 50 52
def GBM_FORMAT_GR88 : Nat := fourcc 71 82 56 56

def EINVAL : Int := 22
def ENOMEM : Int := 12

/-! Data model (gralloc_gbm.cpp lines 49-55 and gralloc_drm_handle.h).

`gralloc_gbm_bo_t` keeps the fields the claims are about: the mapping
token `map_data` (modelled as a Bool: non-null or null), the signed
`lock_count` and the accumulated usage bitmask `locked_for`.  The backend
`gbm_bo` pointer carries no state the code inspects and is omitted.

`gralloc_gbm_handle_t` is the cross-process descriptor; `data` is the
process-local pointer to the live `gralloc_gbm_bo_t` (null = `none`) and
`data_owner` the pid that owns it (0 = unset). -/

structure gralloc_gbm_bo_t where
  map_data : Bool
  lock_count : Int
  locked_for : Nat
deriving DecidableEq

/-- Value produced by `new struct gralloc_gbm_bo_t()` (value-initialised). -/
def boInit : gralloc_gbm_bo_t := ⟨false, 0, 0⟩

structure gralloc_gbm_handle_t where
  width : Nat
  height : Nat
  format : Nat
  usage : Nat
  prime_fd : Int
  data_owner : Nat
  data : Option gralloc_gbm_bo_t
deriving DecidableEq

/-! Format and usage translators (lines 59-107). -/

/-- get_gbm_format (lines 59-91): abstract HAL format to GBM fourcc;
YV12 is planar but must be a single buffer, so GR88 is requested. -/
def get_gbm_format (format : Nat) : Nat :=
  if format = HAL_PIXEL_FORMAT_RGBA_8888 then GBM_FORMAT_ABGR8888
  else if format = HAL_PIXEL_FORMAT_RGBX_8888 then GBM_FORMAT_XBGR8888
  else if format = HAL_PIXEL_FORMAT_RGB_888 then GBM_FORMAT_RGB888
  else if format = HAL_PIXEL_FORMAT_RGB_565 then GBM_FORMAT_RGB565
  else if format = HAL_PIXEL_FORMAT_BGRA_8888 then GBM_FORMAT_ARGB8888
  else if format = HAL_PIXEL_FORMAT_YV12 then GBM_FORMAT_GR88
  else 0

/-- get_pipe_bind (lines 93-107).  The cursor branch of the C source is an
explicit no-op (the bind flag is commented out), so it contributes
nothing here. -/
def get_pipe_bind (usage : Nat) : Nat :=
  let bind : Nat := 0
  let bind := if usage &&& (GRALLOC_USAGE_SW_READ_OFTEN ||| GRALLOC_USAGE_SW_WRITE_OFTEN) ≠ 0
    then bind ||| GBM_BO_USE_LINEAR else bind
  let bind := if usage &&& (GRALLOC_USAGE_HW_RENDER ||| GRALLOC_USAGE_HW_TEXTURE) ≠ 0
    then bind ||| GBM_BO_USE_RENDERING else bind
  let bind := if usage &&& GRALLOC_USAGE_HW_FB ≠ 0
    then bind ||| GBM_BO_USE_SCANOUT else bind
  bind

/-! Physical geometry computed at the three backend call sites. -/

/-- Size passed to gbm_bo_create by gbm_alloc (lines 160-191): cursor
clamp to 64x64 when the bind flags ask for a cursor, then the YV12
adjustment (width halved, height grown by half the logical height). -/
def gbm_alloc_size (h : gralloc_gbm_handle_t) : Nat × Nat :=
  let usage := get_pipe_bind h.usage
  let width := h.width
  let height := h.height
  let width := if usage &&& GBM_BO_USE_CURSOR ≠ 0 ∧ h.width < 64 then 64 else width
  let height := if usage &&& GBM_BO_USE_CURSOR ≠ 0 ∧ h.height < 64 then 64 else height
  if h.format = HAL_PIXEL_FORMAT_YV12 then (width / 2, height + h.height / 2)
  else (width, height)

/-- Size placed in the gbm import descriptor by gbm_import (lines 129-137). -/
def gbm_import_size (h : gralloc_gbm_handle_t) : Nat × Nat :=
  if h.format = HAL_PIXEL_FORMAT_YV12 then (h.width / 2, h.height + h.height / 2)
  else (h.width, h.height)

/-- Width/height adjustment performed by gbm_map (lines 245-250) before
the rect (0,0)-(x+w, y+h) is handed to gbm_bo_map. -/
def gbm_map_size (format w h : Nat) : Nat × Nat :=
  if format = HAL_PIXEL_FORMAT_YV12 then (w / 2, h + h / 2) else (w, h)

/-! Handle registry (lines 109-155, 217-231, 304-368). -/

/-- gbm_import (lines 109-155), control flow only: fail fast on a
negative prime_fd (before any backend call), otherwise consult the
backend import oracle; a fresh value-initialised record wraps a
successful import.  The second component counts gbm_bo_import
invocations. -/
def gbm_import (importOk : Bool) (h : gralloc_gbm_handle_t) :
    Option gralloc_gbm_bo_t × Nat :=
  if h.prime_fd < 0 then (none, 0)
  else ((if importOk then some boInit else none), 1)

/-- gralloc_gbm_bo_from_handle (lines 217-231): owner check, then the
descriptor's process-local data pointer. -/
def gralloc_gbm_bo_from_handle (pid : Nat) (h : gralloc_gbm_handle_t) :
    Option gralloc_gbm_bo_t :=
  if h.data_owner = pid then h.data else none

/-- validate_handle (lines 315-341).  `gbm` is whether a backend context
was supplied.  Returns the resolved object, the (possibly updated)
descriptor, and the number of backend import invocations.  Note that on
the import path the owner and data fields are written unconditionally,
even when the import failed and `bo` is null. -/
def validate_handle (pid : Nat) (gbm : Bool) (importOk : Bool)
    (h : gralloc_gbm_handle_t) :
    Option gralloc_gbm_bo_t × gralloc_gbm_handle_t × Nat :=
  if h.data_owner = pid then (h.data, h, 0)
  else if gbm = false then (none, h, 0)
  else
    let r := gbm_import importOk h
    (r.1, { h with data_owner := pid, data := r.1 }, r.2)

/-- gralloc_gbm_handle_register (lines 346-349). -/
def gralloc_gbm_handle_register (pid : Nat) (importOk : Bool)
    (h : gralloc_gbm_handle_t) : Int × gralloc_gbm_handle_t × Nat :=
  let r := validate_handle pid true importOk h
  ((if r.1.isSome then 0 else -EINVAL), r.2.1, r.2.2)

/-- gralloc_gbm_handle_unregister (lines 354-368): local-only resolve
(no backend context), then free and clear the owner/data fields. -/
def gralloc_gbm_handle_unregister (pid : Nat) (h : gralloc_gbm_handle_t) :
    Int × gralloc_gbm_handle_t :=
  let r := validate_handle pid false false h
  match r.1 with
  | none => (-EINVAL, r.2.1)
  | some _ => (0, { r.2.1 with data_owner := 0, data := none })

end GrallocGbm

namespace GrallocGbm

/-! Lock/map/unlock state machine (lines 233-269, 432-501).

The backend mapping primitive gbm_bo_map is the oracle
`bmap : Nat → Nat → Bool → Option Nat`, taking the rect corner
(x + w, y + h) and the write flag, and answering the mapped address or
null. -/

/-- gbm_map (lines 233-263): reject when a mapping is already active,
apply the YV12 geometry adjustment, then ask the backend.  On failure the
object is unchanged. -/
def gbm_map (bmap : Nat → Nat → Bool → Option Nat) (format : Nat)
    (bo : gralloc_gbm_bo_t) (x y w h : Nat) (enable_write : Bool) :
    gralloc_gbm_bo_t × Except Int Nat :=
  if bo.map_data then (bo, .error (-EINVAL))
  else
    let s := gbm_map_size format w h
    match bmap (x + s.1) (y + s.2) enable_write with
    | none => (bo, .error (-ENOMEM))
    | some a => ({ bo with map_data := true }, .ok a)

/-- gbm_unmap (lines 265-269). -/
def gbm_unmap (bo : gralloc_gbm_bo_t) : gralloc_gbm_bo_t :=
  { bo with map_data := false }

/-- Body of gralloc_gbm_bo_lock after the permission gate
(lines 454-475): the nested-lock compatibility check, the merge of the
accumulated mask into the local usage variable, the map step when the
combined usage carries CPU intent, and only then the bookkeeping.  The
second result component is the error code or the address written to
`*addr` (`none` on the no-CPU path, where `*addr` is never written). -/
def bo_lock_checked (bmap : Nat → Nat → Bool → Option Nat) (format : Nat)
    (bo : gralloc_gbm_bo_t) (usage x y w h : Nat) :
    gralloc_gbm_bo_t × Except Int (Option Nat) :=
  if bo.lock_count ≠ 0 ∧ (bo.locked_for &&& usage) ≠ usage then
    (bo, .error (-EINVAL))
  else
    let usage := usage ||| bo.locked_for
    if usage &&& (GRALLOC_USAGE_SW_WRITE_MASK ||| GRALLOC_USAGE_SW_READ_MASK) ≠ 0 then
      let write := usage &&& GRALLOC_USAGE_SW_WRITE_MASK ≠ 0
      match gbm_map bmap format bo x y w h write with
      | (bo1, .error e) => (bo1, .error e)
      | (bo1, .ok a) =>
          ({ bo1 with lock_count := bo1.lock_count + 1,
                      locked_for := bo1.locked_for ||| usage }, .ok (some a))
    else
      ({ bo with lock_count := bo.lock_count + 1,
                 locked_for := bo.locked_for ||| usage }, .ok none)

/-- gralloc_gbm_bo_lock on a resolved object (lines 441-475): the
permission gate against the descriptor's creation usage, with the
FB / SW-read-often / HW-texture relaxation, then `bo_lock_checked`. -/
def bo_lock (bmap : Nat → Nat → Bool → Option Nat) (husage format : Nat)
    (bo : gralloc_gbm_bo_t) (usage x y w h : Nat) :
    gralloc_gbm_bo_t × Except Int (Option Nat) :=
  if (husage &&& usage) ≠ usage
      ∧ husage &&& GRALLOC_USAGE_SW_READ_OFTEN = 0
      ∧ husage &&& GRALLOC_USAGE_HW_FB = 0
      ∧ husage &&& GRALLOC_USAGE_HW_TEXTURE = 0 then
    (bo, .error (-EINVAL))
  else bo_lock_checked bmap format bo usage x y w h

/-- gralloc_gbm_bo_lock (lines 432-476): resolve the descriptor, run the
state machine, write the updated object back through the descriptor's
data pointer.  Every error path leaves the descriptor (and its object)
untouched, which is proved below rather than assumed: on error `bo_lock`
returns the input object. -/
def gralloc_gbm_bo_lock (bmap : Nat → Nat → Bool → Option Nat) (pid : Nat)
    (h : gralloc_gbm_handle_t) (usage x y w hh : Nat) :
    gralloc_gbm_handle_t × Except Int (Option Nat) :=
  match gralloc_gbm_bo_from_handle pid h with
  | none => (h, .error (-EINVAL))
  | some bo =>
    let r := bo_lock bmap h.usage h.format bo usage x y w hh
    match r.2 with
    | .error e => (h, .error e)
    | .ok a => ({ h with data := some r.1 }, .ok a)

/-- gralloc_gbm_bo_unlock on a resolved object (lines 487-500). -/
def bo_unlock (bo : gralloc_gbm_bo_t) : gralloc_gbm_bo_t × Int :=
  let mapped := bo.locked_for &&&
    (GRALLOC_USAGE_SW_WRITE_MASK ||| GRALLOC_USAGE_SW_READ_MASK)
  if bo.lock_count = 0 then (bo, 0)
  else
    let bo := if mapped ≠ 0 then gbm_unmap bo else bo
    let bo := { bo with lock_count := bo.lock_count - 1 }
    let bo := if bo.lock_count = 0 then { bo with locked_for := 0 } else bo
    (bo, 0)

/-- gralloc_gbm_bo_unlock (lines 481-501). -/
def gralloc_gbm_bo_unlock (pid : Nat) (h : gralloc_gbm_handle_t) :
    gralloc_gbm_handle_t × Int :=
  match gralloc_gbm_bo_from_handle pid h with
  | none => (h, -EINVAL)
  | some bo =>
    let r := bo_unlock bo
    ({ h with data := some r.1 }, r.2)

/-- One lock or unlock step on a buffer object, for statements about
arbitrary call sequences. -/
inductive BoOp where
  | lock (bmap : Nat → Nat → Bool → Option Nat) (husage format usage x y w h : Nat)
  | unlock

/-- State reached by a sequence of lock/unlock calls on one object. -/
def runOps : List BoOp → gralloc_gbm_bo_t → gralloc_gbm_bo_t
  | [], bo => bo
  | op :: rest, bo =>
    runOps rest (match op with
      | .lock bmap hu f u x y w h => (bo_lock bmap hu f bo u x y w h).1
      | .unlock => (bo_unlock bo).1)

/-- The mapping-state invariant of the claim: mapped iff locked with CPU
intent in the accumulated mask. -/
def mapInv (bo : gralloc_gbm_bo_t) : Prop :=
  bo.map_data = true ↔
    (0 < bo.lock_count ∧
      bo.locked_for &&& (GRALLOC_USAGE_SW_WRITE_MASK ||| GRALLOC_USAGE_SW_READ_MASK) ≠ 0)

/-- Strengthened inductive invariant: `mapInv`, CPU intent forces a lock
count of at most one (a second CPU lock is rejected as a double mapping),
zero lock count means an empty mask, and the count never goes negative. -/
def boInv (bo : gralloc_gbm_bo_t) : Prop :=
  mapInv bo ∧
  (bo.locked_for &&& (GRALLOC_USAGE_SW_WRITE_MASK ||| GRALLOC_USAGE_SW_READ_MASK) ≠ 0 →
    bo.lock_count ≤ 1) ∧
  (bo.lock_count = 0 → bo.locked_for = 0) ∧
  0 ≤ bo.lock_count

end GrallocGbm

namespace GrallocGbm

/-! Helper lemmas. -/

/-- The cursor bind flag is never produced: the cursor branch of
get_pipe_bind is disabled in the source. -/
theorem get_pipe_bind_cursor (usage : Nat) :
    get_pipe_bind usage &&& GBM_BO_USE_CURSOR = 0 := by
  simp only [get_pipe_bind]
  split <;> split <;> split <;> decide

/-- Claim C1: when the abstract pixel format is planar YV12, the physical
geometry computed independently at allocation time (gbm_alloc), at import
time (gbm_import) and at map time (gbm_map) is in all three cases
(w / 2, h + h / 2) with integer division, for every logical width w and
height h. -/
theorem yv12_geometry_consistent (w h usage : Nat) (fd : Int) (owner : Nat)
    (d : Option gralloc_gbm_bo_t) :
    gbm_alloc_size ⟨w, h, HAL_PIXEL_FORMAT_YV12, usage, fd, owner, d⟩ = (w / 2, h + h / 2) ∧
    gbm_import_size ⟨w, h, HAL_PIXEL_FORMAT_YV12, usage, fd, owner, d⟩ = (w / 2, h + h / 2) ∧
    gbm_map_size HAL_PIXEL_FORMAT_YV12 w h = (w / 2, h + h / 2) := by
  refine ⟨?_, ?_, ?_⟩
  · simp [gbm_alloc_size, get_pipe_bind_cursor]
  · simp [gbm_import_size]
  · simp [gbm_map_size]

end GrallocGbm

namespace GrallocGbm

/-- Claim C8: when the descriptor's recorded owner equals the current
process identity, Resolve (validate_handle) returns the descriptor's data
reference directly, leaves the descriptor untouched and performs zero
backend import invocations; when the owner differs and no backend context
is supplied, it returns none, again without importing. -/
theorem resolve_owner_paths (pid : Nat) (gbm importOk : Bool)
    (h : gralloc_gbm_handle_t) :
    (h.data_owner = pid → validate_handle pid gbm importOk h = (h.data, h, 0)) ∧
    (h.data_owner ≠ pid → validate_handle pid false importOk h = (none, h, 0)) := by
  constructor
  · intro hown
    simp [validate_handle, hown]
  · intro hown
    simp [validate_handle, hown]

/-- Sample descriptors for concrete evaluations. -/
def hOwned : gralloc_gbm_handle_t := ⟨640, 480, 1, 0x200, 5, 7, some boInit⟩

def hForeign : gralloc_gbm_handle_t := ⟨640, 480, 1, 0x200, 5, 3, none⟩

theorem resolve_owner_paths_witness :
    validate_handle 7 true true hOwned = (some boInit, hOwned, 0) ∧
    validate_handle 7 false true hForeign = (none, hForeign, 0) :=
  ⟨(resolve_owner_paths 7 true true hOwned).1 rfl,
   (resolve_owner_paths 7 false true hForeign).2 (by decide)⟩

/-- Claim C3 counterexample: Register on a fresh descriptor (owner 0)
whose prime_fd is negative does fail with -EINVAL, but the owner field is
NOT left at zero: it is set to the current pid (42 here). -/
theorem register_bad_fd_cex :
    (gralloc_gbm_handle_register 42 true ⟨640, 480, 2, 0x33, -1, 0, none⟩).1 = -EINVAL ∧
    (gralloc_gbm_handle_register 42 true ⟨640, 480, 2, 0x33, -1, 0, none⟩).2.1.data_owner = 42 := by
  decide

/-- Claim C3 (amended): Register on a descriptor with an invalid
(negative) prime_fd and a foreign owner returns -EINVAL, and sets the
descriptor's owner to the current process with a null data reference; the
backend import primitive is never invoked. -/
theorem register_bad_fd_sets_owner (pid : Nat) (importOk : Bool)
    (h : gralloc_gbm_handle_t) (hown : h.data_owner ≠ pid)
    (hfd : h.prime_fd < 0) :
    (gralloc_gbm_handle_register pid importOk h).1 = -EINVAL ∧
    (gralloc_gbm_handle_register pid importOk h).2.1 =
      { h with data_owner := pid, data := none } ∧
    (gralloc_gbm_handle_register pid importOk h).2.2 = 0 := by
  simp [gralloc_gbm_handle_register, validate_handle, gbm_import, hown, hfd]

theorem register_bad_fd_sets_owner_witness :
    (gralloc_gbm_handle_register 42 true ⟨640, 480, 2, 0x33, -1, 0, none⟩).1 = -EINVAL ∧
    (gralloc_gbm_handle_register 42 true ⟨640, 480, 2, 0x33, -1, 0, none⟩).2.1 =
      { (⟨640, 480, 2, 0x33, -1, 0, none⟩ : gralloc_gbm_handle_t) with
          data_owner := 42, data := none } ∧
    (gralloc_gbm_handle_register 42 true ⟨640, 480, 2, 0x33, -1, 0, none⟩).2.2 = 0 :=
  register_bad_fd_sets_owner 42 true ⟨640, 480, 2, 0x33, -1, 0, none⟩
    (by decide) (by decide)

/-- Claim C10: a failed import on a foreign descriptor (negative fd or a
backend refusal) still claims ownership: owner becomes the current pid
with a null data reference, and from then on every Resolve returns none,
Register fails with -EINVAL and Unregister fails with -EINVAL, all without
any further backend import invocation. -/
theorem poisoned_handle_stays_failed (pid : Nat) (importOk : Bool)
    (h : gralloc_gbm_handle_t) (hown : h.data_owner ≠ pid)
    (hfail : h.prime_fd < 0 ∨ importOk = false) :
    (validate_handle pid true importOk h).1 = none ∧
    (validate_handle pid true importOk h).2.1 =
      { h with data_owner := pid, data := none } ∧
    (∀ gbm2 io2, validate_handle pid gbm2 io2
        { h with data_owner := pid, data := none } =
        (none, { h with data_owner := pid, data := none }, 0)) ∧
    (∀ io2, (gralloc_gbm_handle_register pid io2
        { h with data_owner := pid, data := none }).1 = -EINVAL ∧
      (gralloc_gbm_handle_register pid io2
        { h with data_owner := pid, data := none }).2.2 = 0) ∧
    (gralloc_gbm_handle_unregister pid
        { h with data_owner := pid, data := none }).1 = -EINVAL := by
  have himp : (gbm_import importOk h).1 = none := by
    rcases hfail with hf | hf
    · simp [gbm_import, hf]
    · simp only [gbm_import, hf, if_false, Bool.false_eq_true]
      split <;> rfl
  refine ⟨?_, ?_, ?_, ?_, ?_⟩
  · simp [validate_handle, hown, himp]
  · simp [validate_handle, hown, himp]
  · intro gbm2 io2
    simp [validate_handle]
  · intro io2
    simp [gralloc_gbm_handle_register, validate_handle]
  · simp [gralloc_gbm_handle_unregister, validate_handle]

/-- Sample foreign descriptor with an invalid fd. -/
def hBadFd : gralloc_gbm_handle_t := ⟨64, 64, 1, 0, -1, 3, none⟩

theorem poisoned_handle_stays_failed_witness :
    (validate_handle 9 true true hBadFd).1 = none ∧
    validate_handle 9 true false { hBadFd with data_owner := 9, data := none } =
      (none, { hBadFd with data_owner := 9, data := none }, 0) ∧
    (gralloc_gbm_handle_unregister 9
      { hBadFd with data_owner := 9, data := none }).1 = -EINVAL := by
  have t := poisoned_handle_stays_failed 9 true hBadFd (by decide) (Or.inl (by decide))
  exact ⟨t.1, t.2.2.1 true false, t.2.2.2.2⟩

end GrallocGbm

namespace GrallocGbm

/-! Bitmask helper lemmas. -/

theorem land_or_zero {a b c : Nat} (h : (a ||| b) &&& c = 0) :
    a &&& c = 0 ∧ b &&& c = 0 := by
  constructor <;>
  · apply Nat.eq_of_testBit_eq
    intro i
    have hi := congrArg (fun n => n.testBit i) h
    simp only [Nat.testBit_and, Nat.testBit_or, Nat.zero_testBit] at hi ⊢
    cases ha : a.testBit i <;> cases hb : b.testBit i <;>
      cases hc : c.testBit i <;> simp_all

theorem or_land_of_zero {a b c : Nat} (ha : a &&& c = 0) (hb : b &&& c = 0) :
    (a ||| b) &&& c = 0 := by
  apply Nat.eq_of_testBit_eq
  intro i
  have hia := congrArg (fun n => n.testBit i) ha
  have hib := congrArg (fun n => n.testBit i) hb
  simp only [Nat.testBit_and, Nat.testBit_or, Nat.zero_testBit] at hia hib ⊢
  cases h1 : a.testBit i <;> cases h2 : b.testBit i <;>
    cases h3 : c.testBit i <;> simp_all

theorem or_land_ne_zero_right {a b c : Nat} (hb : b &&& c ≠ 0) :
    (a ||| b) &&& c ≠ 0 :=
  fun h => hb (land_or_zero h).2

theorem lor_eq_of_land_eq {u m : Nat} (h : u &&& m = u) : u ||| m = m := by
  apply Nat.eq_of_testBit_eq
  intro i
  have hi := congrArg (fun n => n.testBit i) h
  simp only [Nat.testBit_and, Nat.testBit_or] at hi ⊢
  cases hu : u.testBit i <;> cases hm : m.testBit i <;> simp_all

/-! Outcome characterisations of the lock state machine. -/

/-- gbm_map either rejects an active mapping, propagates a backend
refusal, or records the fresh mapping; the object changes only in the
last case. -/
theorem gbm_map_spec (bmap : Nat → Nat → Bool → Option Nat) (format : Nat)
    (bo : gralloc_gbm_bo_t) (x y w h : Nat) (wr : Bool) :
    (bo.map_data = true ∧ gbm_map bmap format bo x y w h wr = (bo, .error (-EINVAL))) ∨
    (bo.map_data = false ∧ gbm_map bmap format bo x y w h wr = (bo, .error (-ENOMEM))) ∨
    (bo.map_data = false ∧ ∃ a, gbm_map bmap format bo x y w h wr =
      ({ bo with map_data := true }, .ok a)) := by
  by_cases hmd : bo.map_data
  · exact Or.inl ⟨hmd, by simp [gbm_map, hmd]⟩
  · cases hb : bmap (x + (gbm_map_size format w h).1) (y + (gbm_map_size format w h).2) wr with
    | none =>
      refine Or.inr (Or.inl ⟨by simpa using hmd, ?_⟩)
      simp [gbm_map, hmd, hb]
    | some a =>
      refine Or.inr (Or.inr ⟨by simpa using hmd, a, ?_⟩)
      simp [gbm_map, hmd, hb]

/-- Exhaustive outcomes of one lock attempt: an error that leaves the
object untouched, a success that maps (combined usage has CPU intent and
the object was not mapped), or a success without mapping (no CPU intent
in the combined usage). -/
theorem bo_lock_cases (bmap : Nat → Nat → Bool → Option Nat)
    (husage format : Nat) (bo : gralloc_gbm_bo_t) (usage x y w h : Nat) :
    (∃ e, bo_lock bmap husage format bo usage x y w h = (bo, .error e)) ∨
    (∃ a, bo_lock bmap husage format bo usage x y w h =
        ({ bo with map_data := true, lock_count := bo.lock_count + 1, locked_for :=
            bo.locked_for ||| (usage ||| bo.locked_for) }, .ok (some a)) ∧
      bo.map_data = false ∧
      (usage ||| bo.locked_for) &&&
        (GRALLOC_USAGE_SW_WRITE_MASK ||| GRALLOC_USAGE_SW_READ_MASK) ≠ 0 ∧
      ¬(bo.lock_count ≠ 0 ∧ (bo.locked_for &&& usage) ≠ usage)) ∨
    (bo_lock bmap husage format bo usage x y w h =
        ({ bo with lock_count := bo.lock_count + 1, locked_for :=
            bo.locked_for ||| (usage ||| bo.locked_for) }, .ok none) ∧
      (usage ||| bo.locked_for) &&&
        (GRALLOC_USAGE_SW_WRITE_MASK ||| GRALLOC_USAGE_SW_READ_MASK) = 0 ∧
      ¬(bo.lock_count ≠ 0 ∧ (bo.locked_for &&& usage) ≠ usage)) := by
  by_cases hperm : (husage &&& usage) ≠ usage
      ∧ husage &&& GRALLOC_USAGE_SW_READ_OFTEN = 0
      ∧ husage &&& GRALLOC_USAGE_HW_FB = 0
      ∧ husage &&& GRALLOC_USAGE_HW_TEXTURE = 0
  · exact Or.inl ⟨-EINVAL, by simp [bo_lock, hperm]⟩
  · by_cases hcompat : bo.lock_count ≠ 0 ∧ (bo.locked_for &&& usage) ≠ usage
    · exact Or.inl ⟨-EINVAL, by simp [bo_lock, hperm, bo_lock_checked, hcompat]⟩
    · by_cases hcpu : (usage ||| bo.locked_for) &&&
          (GRALLOC_USAGE_SW_WRITE_MASK ||| GRALLOC_USAGE_SW_READ_MASK) ≠ 0
      · rcases gbm_map_spec bmap format bo x y w h
            (!decide ((usage ||| bo.locked_for) &&& GRALLOC_USAGE_SW_WRITE_MASK = 0)) with
          ⟨hmd, hmap⟩ | ⟨hmd, hmap⟩ | ⟨hmd, a, hmap⟩
        · refine Or.inl ⟨-EINVAL, ?_⟩
          simp [bo_lock, hperm, bo_lock_checked, hcompat, hcpu, hmap]
        · refine Or.inl ⟨-ENOMEM, ?_⟩
          simp [bo_lock, hperm, bo_lock_checked, hcompat, hcpu, hmap]
        · refine Or.inr (Or.inl ⟨a, ?_, hmd, hcpu, hcompat⟩)
          simp [bo_lock, hperm, bo_lock_checked, hcompat, hcpu, hmap]
      · refine Or.inr (Or.inr ⟨?_, by simpa using hcpu, hcompat⟩)
        simp [bo_lock, hperm, bo_lock_checked, hcompat, hcpu]

end GrallocGbm

namespace GrallocGbm

/-- Exhaustive outcomes of one unlock: a no-op at count zero, otherwise
unmap when the accumulated mask has CPU intent, decrement, and clear the
mask when the count reaches zero. -/
theorem bo_unlock_spec (bo : gralloc_gbm_bo_t) :
    (bo.lock_count = 0 ∧ bo_unlock bo = (bo, 0)) ∨
    (bo.lock_count ≠ 0 ∧ bo_unlock bo =
      ({ map_data := if bo.locked_for &&&
            (GRALLOC_USAGE_SW_WRITE_MASK ||| GRALLOC_USAGE_SW_READ_MASK) ≠ 0
            then false else bo.map_data,
         lock_count := bo.lock_count - 1,
         locked_for := if bo.lock_count - 1 = 0 then 0 else bo.locked_for }, 0)) := by
  by_cases hc : bo.lock_count = 0
  · exact Or.inl ⟨hc, by simp [bo_unlock, hc]⟩
  · refine Or.inr ⟨hc, ?_⟩
    by_cases hm : bo.locked_for &&&
        (GRALLOC_USAGE_SW_WRITE_MASK ||| GRALLOC_USAGE_SW_READ_MASK) ≠ 0 <;>
      by_cases hz : bo.lock_count - 1 = 0 <;>
        simp [bo_unlock, gbm_unmap, hc, hm, hz]

/-- One lock step preserves the strengthened invariant. -/
theorem bo_lock_inv (bmap : Nat → Nat → Bool → Option Nat)
    (husage format usage x y w h : Nat) (bo : gralloc_gbm_bo_t)
    (hinv : boInv bo) : boInv (bo_lock bmap husage format bo usage x y w h).1 := by
  obtain ⟨hmap, hone, hzero, hnn⟩ := hinv
  rcases bo_lock_cases bmap husage format bo usage x y w h with
    ⟨e, heq⟩ | ⟨a, heq, hmd, hcpu, hcompat⟩ | ⟨heq, hcpu, hcompat⟩
  · rw [heq]
    exact ⟨hmap, hone, hzero, hnn⟩
  · rw [heq]
    have hcnt : bo.lock_count = 0 := by
      by_contra hne
      have hsub : bo.locked_for &&& usage = usage := by
        by_contra hns
        exact hcompat ⟨hne, hns⟩
      have husub : usage &&& bo.locked_for = usage := by
        rw [Nat.and_comm]
        exact hsub
      rw [lor_eq_of_land_eq husub] at hcpu
      have hpos : 0 < bo.lock_count := by omega
      have := hmap.mpr ⟨hpos, hcpu⟩
      rw [hmd] at this
      exact Bool.false_ne_true this
  -- the new object is mapped, counted once, with CPU intent in its mask
    refine ⟨?_, ?_, ?_, ?_⟩
    · dsimp [mapInv]
      constructor
      · intro _
        exact ⟨by omega, or_land_ne_zero_right hcpu⟩
      · intro _
        rfl
    · intro _
      dsimp
      omega
    · intro habs
      dsimp at habs
      omega
    · dsimp
      omega
  · rw [heq]
    obtain ⟨hu0, hl0⟩ := land_or_zero hcpu
    have hmask0 : (bo.locked_for ||| (usage ||| bo.locked_for)) &&&
        (GRALLOC_USAGE_SW_WRITE_MASK ||| GRALLOC_USAGE_SW_READ_MASK) = 0 :=
      or_land_of_zero hl0 hcpu
    have hmdf : bo.map_data = false := by
      cases hmd : bo.map_data with
      | false => rfl
      | true => exact absurd hl0 (hmap.mp hmd).2
    refine ⟨?_, ?_, ?_, ?_⟩
    · dsimp [mapInv]
      rw [hmdf]
      constructor
      · intro habs
        cases habs
      · rintro ⟨-, hne⟩
        exact absurd hmask0 hne
    · intro hne
      exact absurd hmask0 hne
    · intro habs
      dsimp at habs
      omega
    · dsimp
      omega

/-- One unlock step preserves the strengthened invariant. -/
theorem bo_unlock_inv (bo : gralloc_gbm_bo_t) (hinv : boInv bo) :
    boInv (bo_unlock bo).1 := by
  obtain ⟨hmap, hone, hzero, hnn⟩ := hinv
  rcases bo_unlock_spec bo with ⟨hc, heq⟩ | ⟨hc, heq⟩
  · rw [heq]
    exact ⟨hmap, hone, hzero, hnn⟩
  · rw [heq]
    by_cases hm : bo.locked_for &&&
        (GRALLOC_USAGE_SW_WRITE_MASK ||| GRALLOC_USAGE_SW_READ_MASK) ≠ 0
    · have h1 : bo.lock_count = 1 := by
        have := hone hm
        omega
      have hz : bo.lock_count - 1 = 0 := by omega
      rw [if_pos hm, if_pos hz]
      refine ⟨?_, ?_, ?_, ?_⟩
      · dsimp [mapInv]
        constructor
        · intro habs
          cases habs
        · rintro ⟨-, hne⟩
          exact absurd (by simp) hne
      · intro hne
        exact absurd (by simp) hne
      · intro _
        rfl
      · dsimp
        omega
    · have hm0 : bo.locked_for &&&
          (GRALLOC_USAGE_SW_WRITE_MASK ||| GRALLOC_USAGE_SW_READ_MASK) = 0 := by
        simpa using hm
      have hmdf : bo.map_data = false := by
        cases hmd : bo.map_data with
        | false => rfl
        | true => exact absurd hm0 (hmap.mp hmd).2
      rw [if_neg hm]
      by_cases hz : bo.lock_count - 1 = 0
      · rw [if_pos hz]
        refine ⟨?_, ?_, ?_, ?_⟩
        · dsimp [mapInv]
          rw [hmdf]
          constructor
          · intro habs
            cases habs
          · rintro ⟨-, hne⟩
            exact absurd (by simp) hne
        · intro hne
          exact absurd (by simp) hne
        · intro _
          rfl
        · dsimp
          omega
      · rw [if_neg hz]
        refine ⟨?_, ?_, ?_, ?_⟩
        · dsimp [mapInv]
          rw [hmdf]
          constructor
          · intro habs
            cases habs
          · rintro ⟨-, hne⟩
            exact absurd hm0 hne
        · intro hne
          exact absurd hm0 hne
        · intro habs
          dsimp at habs
          exact absurd habs hz
        · dsimp
          omega

/-- The strengthened invariant holds along every lock/unlock sequence. -/
theorem runOps_boInv (ops : List BoOp) (bo : gralloc_gbm_bo_t)
    (hinv : boInv bo) : boInv (runOps ops bo) := by
  induction ops generalizing bo with
  | nil => exact hinv
  | cons op rest ih =>
    cases op with
    | lock bmap hu f u x y w h =>
      exact ih _ (bo_lock_inv bmap hu f u x y w h bo hinv)
    | unlock => exact ih _ (bo_unlock_inv bo hinv)

theorem bo_lock_nonneg (bmap : Nat → Nat → Bool → Option Nat)
    (husage format usage x y w h : Nat) (bo : gralloc_gbm_bo_t)
    (h0 : 0 ≤ bo.lock_count) :
    0 ≤ (bo_lock bmap husage format bo usage x y w h).1.lock_count := by
  rcases bo_lock_cases bmap husage format bo usage x y w h with
      ⟨e, heq⟩ | ⟨a, heq, -, -, -⟩ | ⟨heq, -, -⟩ <;>
    rw [heq] <;> dsimp <;> omega

theorem bo_unlock_nonneg (bo : gralloc_gbm_bo_t) (h0 : 0 ≤ bo.lock_count) :
    0 ≤ (bo_unlock bo).1.lock_count := by
  rcases bo_unlock_spec bo with ⟨hc, heq⟩ | ⟨hc, heq⟩ <;>
    rw [heq] <;> dsimp <;> omega

theorem runOps_nonneg (ops : List BoOp) (bo : gralloc_gbm_bo_t)
    (h0 : 0 ≤ bo.lock_count) : 0 ≤ (runOps ops bo).lock_count := by
  induction ops generalizing bo with
  | nil => exact h0
  | cons op rest ih =>
    cases op with
    | lock bmap hu f u x y w h =>
      exact ih _ (bo_lock_nonneg bmap hu f u x y w h bo h0)
    | unlock => exact ih _ (bo_unlock_nonneg bo h0)

end GrallocGbm

namespace GrallocGbm

/-- Claim C4: for a buffer object as created by allocation or import
(value-initialised), after every sequence of Lock and Unlock operations
the mapping state is non-null if and only if the lock count is positive
and the accumulated usage mask contains a CPU (software) read or write
intent. -/
theorem map_state_invariant (ops : List BoOp) :
    mapInv (runOps ops boInit) :=
  (runOps_boInv ops boInit (by unfold boInv mapInv boInit; decide)).1

/-- Claim C5: unlocking a resolvable buffer whose lock count is 0 returns
success and leaves the descriptor and its object untouched (no unmap, no
decrement); moreover the lock count stays non-negative under every
sequence of lock/unlock calls. -/
theorem unlock_at_zero_noop (pid : Nat) (h : gralloc_gbm_handle_t)
    (bo : gralloc_gbm_bo_t) (hown : h.data_owner = pid)
    (hdata : h.data = some bo) (hcnt : bo.lock_count = 0) :
    gralloc_gbm_bo_unlock pid h = (h, 0) ∧
    (∀ (ops : List BoOp) (bo0 : gralloc_gbm_bo_t),
      0 ≤ bo0.lock_count → 0 ≤ (runOps ops bo0).lock_count) := by
  constructor
  · obtain ⟨W, H, F, U, FD, OW, D⟩ := h
    simp only at hdata hown
    subst hdata
    simp [gralloc_gbm_bo_unlock, gralloc_gbm_bo_from_handle, hown, bo_unlock, hcnt]
  · exact fun ops bo0 h0 => runOps_nonneg ops bo0 h0

theorem unlock_at_zero_noop_witness :
    gralloc_gbm_bo_unlock 7 hOwned = (hOwned, 0) ∧
    0 ≤ (runOps [BoOp.unlock, BoOp.unlock] boInit).lock_count :=
  ⟨(unlock_at_zero_noop 7 hOwned boInit rfl rfl rfl).1,
   (unlock_at_zero_noop 7 hOwned boInit rfl rfl rfl).2
     [BoOp.unlock, BoOp.unlock] boInit (by decide)⟩

/-- Claim C9: whenever a lock attempt returns an error - permission or
compatibility failure, double mapping, or a backend map refusal - the
buffer object (its lock count and accumulated usage mask included) and
the descriptor are exactly as they were before the call. -/
theorem lock_error_no_mutation (bmap : Nat → Nat → Bool → Option Nat)
    (pid : Nat) (h : gralloc_gbm_handle_t) (usage x y w hh : Nat) (e : Int) :
    (∀ husage format bo,
      (bo_lock bmap husage format bo usage x y w hh).2 = .error e →
      (bo_lock bmap husage format bo usage x y w hh).1 = bo) ∧
    ((gralloc_gbm_bo_lock bmap pid h usage x y w hh).2 = .error e →
      (gralloc_gbm_bo_lock bmap pid h usage x y w hh).1 = h) := by
  constructor
  · intro husage format bo herr
    rcases bo_lock_cases bmap husage format bo usage x y w hh with
      ⟨e2, heq⟩ | ⟨a, heq, -, -, -⟩ | ⟨heq, -, -⟩
    · rw [heq]
    · rw [heq] at herr
      cases herr
    · rw [heq] at herr
      cases herr
  · intro herr
    cases hres : gralloc_gbm_bo_from_handle pid h with
    | none => simp [gralloc_gbm_bo_lock, hres]
    | some bo =>
      cases hr : (bo_lock bmap h.usage h.format bo usage x y w hh).2 with
      | error e2 => simp [gralloc_gbm_bo_lock, hres, hr]
      | ok a =>
        rw [gralloc_gbm_bo_lock] at herr
        simp only [hres, hr] at herr
        exact Except.noConfusion herr

theorem lock_error_no_mutation_witness :
    (bo_lock (fun _ _ _ => none) 0 1 boInit 1 0 0 64 64).1 = boInit :=
  (lock_error_no_mutation (fun _ _ _ => none) 0 hForeign 1 0 0 64 64
    (-EINVAL)).1 0 1 boInit rfl

/-- Claim C6: a lock whose requested usage is not a subset of the
descriptor's creation-time usage fails with -EINVAL - unless the creation
usage carries a software-read-often bit, the framebuffer bit or the
texture bit, in which case the subset requirement is waived and the call
proceeds directly to the remaining checks of the state machine. -/
theorem lock_permission_check (bmap : Nat → Nat → Bool → Option Nat)
    (pid : Nat) (h : gralloc_gbm_handle_t) (usage x y w hh : Nat) :
    ((h.usage &&& usage) ≠ usage →
      h.usage &&& GRALLOC_USAGE_SW_READ_OFTEN = 0 →
      h.usage &&& GRALLOC_USAGE_HW_FB = 0 →
      h.usage &&& GRALLOC_USAGE_HW_TEXTURE = 0 →
      gralloc_gbm_bo_lock bmap pid h usage x y w hh = (h, .error (-EINVAL))) ∧
    (∀ husage format bo,
      (husage &&& GRALLOC_USAGE_SW_READ_OFTEN ≠ 0 ∨
       husage &&& GRALLOC_USAGE_HW_FB ≠ 0 ∨
       husage &&& GRALLOC_USAGE_HW_TEXTURE ≠ 0) →
      bo_lock bmap husage format bo usage x y w hh =
        bo_lock_checked bmap format bo usage x y w hh) := by
  constructor
  · intro h1 h2 h3 h4
    cases hres : gralloc_gbm_bo_from_handle pid h with
    | none => simp [gralloc_gbm_bo_lock, hres]
    | some bo =>
      have hb : bo_lock bmap h.usage h.format bo usage x y w hh =
          (bo, .error (-EINVAL)) := by
        unfold bo_lock
        rw [if_pos ⟨h1, h2, h3, h4⟩]
      simp [gralloc_gbm_bo_lock, hres, hb]
  · intro husage format bo hw
    unfold bo_lock
    rw [if_neg]
    rintro ⟨-, hb, hc, hd⟩
    rcases hw with hx | hx | hx
    · exact hx hb
    · exact hx hc
    · exact hx hd

theorem lock_permission_check_witness :
    gralloc_gbm_bo_lock (fun _ _ _ => none) 7 hForeign 1 0 0 64 64 =
      (hForeign, .error (-EINVAL)) ∧
    bo_lock (fun _ _ _ => none) 0x1000 1 boInit 5 0 0 64 64 =
      bo_lock_checked (fun _ _ _ => none) 1 boInit 5 0 0 64 64 :=
  ⟨(lock_permission_check (fun _ _ _ => none) 7 hForeign 1 0 0 64 64).1
     (by decide) (by decide) (by decide) (by decide),
   (lock_permission_check (fun _ _ _ => none) 7 hForeign 5 0 0 64 64).2
     0x1000 1 boInit (Or.inr (Or.inl (by decide)))⟩

/-- Claim C7: a lock on a resolvable buffer whose combined usage
(requested usage OR the accumulated mask) carries no CPU read/write
intent - and which passes the permission and compatibility checks -
succeeds with no address (the out-parameter is never written) and
increments the lock count, for EVERY backend map oracle: no backend map
call is performed and the mapping state is untouched. -/
theorem lock_no_cpu_intent (pid : Nat) (h : gralloc_gbm_handle_t)
    (bo : gralloc_gbm_bo_t) (usage x y w hh : Nat)
    (hres : gralloc_gbm_bo_from_handle pid h = some bo)
    (hperm : ¬((h.usage &&& usage) ≠ usage
      ∧ h.usage &&& GRALLOC_USAGE_SW_READ_OFTEN = 0
      ∧ h.usage &&& GRALLOC_USAGE_HW_FB = 0
      ∧ h.usage &&& GRALLOC_USAGE_HW_TEXTURE = 0))
    (hcompat : ¬(bo.lock_count ≠ 0 ∧ (bo.locked_for &&& usage) ≠ usage))
    (hnocpu : (usage ||| bo.locked_for) &&&
      (GRALLOC_USAGE_SW_WRITE_MASK ||| GRALLOC_USAGE_SW_READ_MASK) = 0) :
    ∀ bmap, gralloc_gbm_bo_lock bmap pid h usage x y w hh =
      ({ h with data := some { bo with lock_count := bo.lock_count + 1, locked_for :=
          bo.locked_for ||| (usage ||| bo.locked_for) } }, .ok none) := by
  intro bmap
  have hb : bo_lock bmap h.usage h.format bo usage x y w hh =
      ({ bo with lock_count := bo.lock_count + 1, locked_for :=
        bo.locked_for ||| (usage ||| bo.locked_for) }, .ok none) := by
    simp [bo_lock, hperm, bo_lock_checked, hcompat, hnocpu]
  simp [gralloc_gbm_bo_lock, hres, hb]

theorem lock_no_cpu_intent_witness :
    gralloc_gbm_bo_lock (fun _ _ _ => none) 7 hOwned 0x200 0 0 64 64 =
      ({ hOwned with data := some { boInit with
          lock_count := boInit.lock_count + 1, locked_for :=
          boInit.locked_for ||| (0x200 ||| boInit.locked_for) } }, .ok none) :=
  lock_no_cpu_intent 7 hOwned boInit 0x200 0 0 64 64
    (by decide) (by decide) (by decide) (by decide) (fun _ _ _ => none)

end GrallocGbm

namespace GrallocGbm

/-- Descriptor created with software-read-often usage, owned by pid 1,
with a freshly allocated object. -/
def hSwRead : gralloc_gbm_handle_t := ⟨64, 64, 1, 3, 4, 1, some boInit⟩

/-- Claim C2 counterexample: locking hSwRead with usage 3 (SW_READ_OFTEN)
succeeds and maps, leaving the object locked (count 1) with accumulated
mask U1 = 3; a second lock with U2 = 3, a subset of U1, does NOT succeed:
it fails with -EINVAL, because the combined usage has CPU intent and the
object is already mapped. -/
theorem nested_lock_subset_cex :
    (gralloc_gbm_bo_lock (fun _ _ _ => some 100) 1 hSwRead 3 0 0 64 64).2 =
      .ok (some 100) ∧
    (gralloc_gbm_bo_lock (fun _ _ _ => some 100) 1 hSwRead 3 0 0 64 64).1.data =
      some ⟨true, 1, 3⟩ ∧
    (gralloc_gbm_bo_lock (fun _ _ _ => some 100) 1
      (gralloc_gbm_bo_lock (fun _ _ _ => some 100) 1 hSwRead 3 0 0 64 64).1
      3 0 0 64 64).2 = .error (-EINVAL) :=
  ⟨rfl, rfl, rfl⟩

/-- Claim C2 (amended): for a locked buffer (count > 0) in a reachable
state, under a passing permission gate: a request whose bits are not all
in the accumulated mask U1 fails with -EINVAL; a request U2 with
U2 AND U1 = U2 succeeds and increments the count when U1 carries no CPU
read/write intent; but when U1 carries CPU intent, the same subset
request fails with -EINVAL (the object is already mapped and a second
mapping is rejected). -/
theorem nested_lock_usage_compat (bmap : Nat → Nat → Bool → Option Nat)
    (pid : Nat) (h : gralloc_gbm_handle_t) (bo : gralloc_gbm_bo_t)
    (u2 x y w hh : Nat) (hown : h.data_owner = pid) (hdata : h.data = some bo)
    (hinv : boInv bo) (hlocked : 0 < bo.lock_count)
    (hperm : ¬((h.usage &&& u2) ≠ u2
      ∧ h.usage &&& GRALLOC_USAGE_SW_READ_OFTEN = 0
      ∧ h.usage &&& GRALLOC_USAGE_HW_FB = 0
      ∧ h.usage &&& GRALLOC_USAGE_HW_TEXTURE = 0)) :
    ((bo.locked_for &&& u2) ≠ u2 →
      (gralloc_gbm_bo_lock bmap pid h u2 x y w hh).2 = .error (-EINVAL)) ∧
    ((bo.locked_for &&& u2) = u2 →
      bo.locked_for &&& (GRALLOC_USAGE_SW_WRITE_MASK ||| GRALLOC_USAGE_SW_READ_MASK) = 0 →
      gralloc_gbm_bo_lock bmap pid h u2 x y w hh =
        ({ h with data := some { bo with lock_count := bo.lock_count + 1, locked_for :=
            bo.locked_for ||| (u2 ||| bo.locked_for) } }, .ok none)) ∧
    ((bo.locked_for &&& u2) = u2 →
      bo.locked_for &&& (GRALLOC_USAGE_SW_WRITE_MASK ||| GRALLOC_USAGE_SW_READ_MASK) ≠ 0 →
      (gralloc_gbm_bo_lock bmap pid h u2 x y w hh).2 = .error (-EINVAL)) := by
  have hres : gralloc_gbm_bo_from_handle pid h = some bo := by
    simp [gralloc_gbm_bo_from_handle, hown, hdata]
  refine ⟨?_, ?_, ?_⟩
  · intro hne
    have hb : bo_lock bmap h.usage h.format bo u2 x y w hh =
        (bo, .error (-EINVAL)) := by
      unfold bo_lock
      rw [if_neg hperm]
      unfold bo_lock_checked
      rw [if_pos ⟨by omega, hne⟩]
    simp [gralloc_gbm_bo_lock, hres, hb]
  · intro hsub hcpu0
    have husub : u2 &&& bo.locked_for = u2 := by
      rw [Nat.and_comm]
      exact hsub
    have hor : u2 ||| bo.locked_for = bo.locked_for := lor_eq_of_land_eq husub
    have hnocpu : (u2 ||| bo.locked_for) &&&
        (GRALLOC_USAGE_SW_WRITE_MASK ||| GRALLOC_USAGE_SW_READ_MASK) = 0 := by
      rw [hor]
      exact hcpu0
    have hb : bo_lock bmap h.usage h.format bo u2 x y w hh =
        ({ bo with lock_count := bo.lock_count + 1, locked_for :=
          bo.locked_for ||| (u2 ||| bo.locked_for) }, .ok none) := by
      simp [bo_lock, hperm, bo_lock_checked, hsub, hnocpu]
    simp [gralloc_gbm_bo_lock, hres, hb]
  · intro hsub hcpu
    have hmd : bo.map_data = true := hinv.1.mpr ⟨hlocked, hcpu⟩
    have husub : u2 &&& bo.locked_for = u2 := by
      rw [Nat.and_comm]
      exact hsub
    have hor : u2 ||| bo.locked_for = bo.locked_for := lor_eq_of_land_eq husub
    have hnz : (u2 ||| bo.locked_for) &&&
        (GRALLOC_USAGE_SW_WRITE_MASK ||| GRALLOC_USAGE_SW_READ_MASK) ≠ 0 := by
      rw [hor]
      exact hcpu
    have hb : bo_lock bmap h.usage h.format bo u2 x y w hh =
        (bo, .error (-EINVAL)) := by
      simp [bo_lock, hperm, bo_lock_checked, hsub, hnz, gbm_map, hmd]
    simp [gralloc_gbm_bo_lock, hres, hb]

/-- Descriptor created with render and framebuffer usage, holding an
object locked once for HW_RENDER (no CPU intent, hence unmapped). -/
def hHwLocked : gralloc_gbm_handle_t := ⟨64, 64, 1, 0x1200, 4, 1, some ⟨false, 1, 0x200⟩⟩

/-- Descriptor created with SW_READ_OFTEN usage, holding an object locked
once for usage 3 with an active mapping. -/
def hSwLocked : gralloc_gbm_handle_t := ⟨64, 64, 1, 3, 4, 1, some ⟨true, 1, 3⟩⟩

theorem nested_lock_usage_compat_witness :
    ((gralloc_gbm_bo_lock (fun _ _ _ => some 100) 1 hHwLocked 0x10 0 0 64 64).2 =
      .error (-EINVAL)) ∧
    (gralloc_gbm_bo_lock (fun _ _ _ => some 100) 1 hHwLocked 0x200 0 0 64 64 =
      ({ hHwLocked with data := some { (⟨false, 1, 0x200⟩ : gralloc_gbm_bo_t) with
          lock_count := (1 : Int) + 1, locked_for := 0x200 ||| (0x200 ||| 0x200) } },
        .ok none)) ∧
    ((gralloc_gbm_bo_lock (fun _ _ _ => some 100) 1 hSwLocked 3 0 0 64 64).2 =
      .error (-EINVAL)) :=
  ⟨(nested_lock_usage_compat (fun _ _ _ => some 100) 1 hHwLocked ⟨false, 1, 0x200⟩
      0x10 0 0 64 64 rfl rfl (by unfold boInv mapInv; decide)
      (by decide) (by decide)).1 (by decide),
   (nested_lock_usage_compat (fun _ _ _ => some 100) 1 hHwLocked ⟨false, 1, 0x200⟩
      0x200 0 0 64 64 rfl rfl (by unfold boInv mapInv; decide)
      (by decide) (by decide)).2.1 (by decide) (by decide),
   (nested_lock_usage_compat (fun _ _ _ => some 100) 1 hSwLocked ⟨true, 1, 3⟩
      3 0 0 64 64 rfl rfl (by unfold boInv mapInv; decide)
      (by decide) (by decide)).2.2 (by decide) (by decide)⟩

end GrallocGbm
